import Mathlib

/-!
Shallow embedding of the token-resolution and JWT-verification pipeline of
the vaultmind backend:
  - `get_jwks` / `verify_jwt`  (src/backend/main.py)
  - `get_management_api_token` / `get_google_access_token_from_management_api`
    (src/backend/auth0_management.py)
  - `get_google_access_token_from_auth0`  (src/backend/app/google_calendar.py)

Python dict lookups on the claims object are modelled by structure fields of
type `Option _` (a missing key is `none`); Python truthiness of a string
value (`if x:`) is `pyTruthy`.  Time is modelled as `Int` seconds.  Network
calls are modelled by passing the outcome of the call as an explicit
argument (a transport error is the `Except.error` / `transportError` case).
The number of outbound HTTP requests performed on each path is returned
explicitly as a `Nat`, so refresh/call-count properties can be stated.
-/

namespace VaultMind

/-- Python truthiness of an optional string: `None` and `""` are falsy. -/
def pyTruthy : Option String → Bool
  | none => false
  | some s => !s.isEmpty

/- ===================== Key Cache: get_jwks (main.py) ===================== -/

/-- One entry of the JWKS `keys` array, with the fields read by
`verify_jwt`'s `rsa_key` construction (`kty`, `kid`, `use`, `n`, `e`);
absent fields are `none`. -/
structure JwkKey where
  kty : Option String
  kid : Option String
  keyUse : Option String
  n : Option String
  e : Option String
deriving DecidableEq

/-- The JSON document served by the JWKS endpoint; `jwks.get("keys", [])`
is modelled by `keys` with an absent key as `[]`. -/
structure Jwks where
  keys : List JwkKey
deriving DecidableEq

/-- The module-level cache `jwks_cache` / `jwks_last_updated` of main.py.
The initial empty dict `{}` and initial `None` timestamp are both falsy in
the cache-validity check and are modelled as `none`. -/
structure JwksState where
  jwks_cache : Option Jwks
  jwks_last_updated : Option Int
deriving DecidableEq

/-- JWKS_CACHE_DURATION = 3600 seconds (main.py line 49). -/
def JWKS_CACHE_DURATION : Int := 3600

/-- Environment variables read by main.py (`os.getenv` gives `none` when
unset). -/
structure Env where
  auth0_domain : Option String
  auth0_audience : Option String
deriving DecidableEq

/-- The cache-validity test of get_jwks (main.py lines 112-116):
`jwks_cache and jwks_last_updated and (current_time - jwks_last_updated) <
JWKS_CACHE_DURATION`.  The stored timestamp is a float, so `0` is falsy. -/
def cacheValid (now : Int) (st : JwksState) : Bool :=
  match st.jwks_cache, st.jwks_last_updated with
  | some _, some t => decide (t ≠ 0) && decide (now - t < JWKS_CACHE_DURATION)
  | _, _ => false

/-- Errors raised by get_jwks, as HTTPException(500) values. -/
inductive JwksError where
  | domainNotConfigured
  | keySourceUnavailable
deriving DecidableEq

/-- The refresh path of get_jwks (main.py lines 119-135): check the domain
configuration, then perform the outbound GET whose outcome is `fetch`; on
success the cache is replaced wholesale and stamped with `now`, on any
exception HTTPException(500, "Unable to verify JWT signature") is raised.
The second component counts outbound fetch attempts on this path. -/
def jwks_fetch (env : Env) (now : Int) (st : JwksState) (fetch : Except Unit Jwks) :
    Except JwksError (Jwks × JwksState) × Nat :=
  if !pyTruthy env.auth0_domain then (.error .domainNotConfigured, 0)
  else
    match fetch with
    | .ok j => (.ok (j, ⟨some j, some now⟩), 1)
    | .error _ =>
      let _ := st
      (.error .keySourceUnavailable, 1)

/-- get_jwks (main.py lines 102-135): serve the cached key set while it is
valid, otherwise fetch; the fetched document is assumed non-empty (truthy)
when stored.  The `Nat` is the number of outbound fetch attempts. -/
def get_jwks (env : Env) (now : Int) (st : JwksState) (fetch : Except Unit Jwks) :
    Except JwksError (Jwks × JwksState) × Nat :=
  match st.jwks_cache, st.jwks_last_updated with
  | some c, some t =>
    if decide (t ≠ 0) && decide (now - t < JWKS_CACHE_DURATION) then (.ok (c, st), 0)
    else jwks_fetch env now st fetch
  | _, _ => jwks_fetch env now st fetch

/- ===================== Token Verifier: verify_jwt (main.py) ============== -/

/-- The JOSE header fields read by verify_jwt and jwt.decode. -/
structure TokenHeader where
  kid : Option String
  alg : Option String

/-- The payload claims validated by jwt.decode. -/
structure TokenPayload where
  sub : Option String
  aud : Option String
  iss : Option String
  exp : Option Int
deriving DecidableEq

/-- A bearer token: `wellFormed` is whether it parses into header+payload
(else PyJWT raises DecodeError), and `sigValid k` is the outcome of RS256
signature verification against the public key built from JWKS entry `k`. -/
structure Token where
  wellFormed : Bool
  header : TokenHeader
  payload : TokenPayload
  sigValid : JwkKey → Bool

/-- Failure cases of verify_jwt, one per distinct HTTPException detail:
`jwksError` propagates get_jwks's HTTPException; `malformedToken` is
DecodeError ("Invalid JWT token"); `missingKid` is "JWT missing key ID";
`unknownSigningKey` is "Unable to find appropriate key";
`verificationError` is the blanket except branch ("Unable to verify JWT
token", e.g. bad key material in from_jwk); `invalidToken` is
jwt.InvalidTokenError ("Invalid JWT token"); `tokenExpired` is
jwt.ExpiredSignatureError ("JWT token has expired"). -/
inductive VerifyError where
  | jwksError (e : JwksError)
  | malformedToken
  | missingKid
  | unknownSigningKey
  | verificationError
  | invalidToken
  | tokenExpired
deriving DecidableEq

/-- Linear scan of the JWKS `keys` array for the first entry whose `kid`
equals the token's kid (main.py lines 166-176). -/
def findKey (keys : List JwkKey) (kid : String) : Option JwkKey :=
  match keys with
  | [] => none
  | k :: rest => if k.kid = some kid then some k else findKey rest kid

/-- RSAAlgorithm.from_jwk on the assembled `rsa_key` (main.py line 182):
fails (raising into the blanket except branch) when the key material is
not an RSA key with modulus and exponent present. -/
def from_jwk (key : JwkKey) : Except VerifyError Unit :=
  if key.kty = some "RSA" && key.n.isSome && key.e.isSome then .ok ()
  else .error .verificationError

/-- Issuer string `https://{AUTH0_DOMAIN}/` built by f-string interpolation
(main.py line 195); an unset domain interpolates as the text None. -/
def issuerOf (env : Env) : String :=
  "https://" ++ (env.auth0_domain.getD "None") ++ "/"

/-- Audience validation of PyJWT (`_validate_aud`), restricted to a single
string `aud` claim: with no configured audience a present non-empty `aud`
is rejected; with a configured audience a missing/empty `aud` is a missing
required claim and a different value is an audience mismatch. -/
def jwtValidateAud (tok : Token) (audience : Option String) :
    Except VerifyError TokenPayload :=
  match audience with
  | none => if pyTruthy tok.payload.aud then .error .invalidToken else .ok tok.payload
  | some a =>
    if !pyTruthy tok.payload.aud then .error .invalidToken
    else if tok.payload.aud = some a then .ok tok.payload
    else .error .invalidToken

/-- Issuer then audience validation of PyJWT `_validate_claims` (the
issuer argument is always a string here, so a missing `iss` claim is a
missing required claim). -/
def jwtValidateIssAud (tok : Token) (audience : Option String) (issuer : String) :
    Except VerifyError TokenPayload :=
  match tok.payload.iss with
  | none => .error .invalidToken
  | some i => if i = issuer then jwtValidateAud tok audience else .error .invalidToken

/-- jwt.decode(token, public_key, algorithms=["RS256"], audience=...,
issuer=...) (main.py lines 190-196), following PyJWT's check order: the
declared algorithm must be RS256, then the signature is verified, and only
then are the claims validated - expiry (ExpiredSignatureError when
`exp <= now`), then issuer, then audience. -/
def jwtDecode (tok : Token) (key : JwkKey) (audience : Option String)
    (issuer : String) (now : Int) : Except VerifyError TokenPayload :=
  if tok.header.alg ≠ some "RS256" then .error .invalidToken
  else if !tok.sigValid key then .error .invalidToken
  else
    match tok.payload.exp with
    | some x =>
      if x ≤ now then .error .tokenExpired
      else jwtValidateIssAud tok audience (issuer)
    | none => jwtValidateIssAud tok audience (issuer)

/-- verify_jwt (main.py lines 138-212): get_jwks first (its HTTPException
propagates), then parse the header (DecodeError for a malformed token),
reject a falsy kid, scan the key set for the kid and fail with
"Unable to find appropriate key" when absent - with no further fetch -
then build the public key and run jwt.decode.  The `Nat` is the number of
outbound JWKS fetch attempts performed during the call. -/
def verify_jwt (env : Env) (now : Int) (st : JwksState) (fetch : Except Unit Jwks)
    (tok : Token) : Except VerifyError (TokenPayload × JwksState) × Nat :=
  match get_jwks env now st fetch with
  | (.error e, cnt) => (.error (.jwksError e), cnt)
  | (.ok (jwks, st2), cnt) =>
    if !tok.wellFormed then (.error .malformedToken, cnt)
    else
      match tok.header.kid with
      | none => (.error .missingKid, cnt)
      | some kid =>
        if kid.isEmpty then (.error .missingKid, cnt)
        else
          match findKey jwks.keys kid with
          | none => (.error .unknownSigningKey, cnt)
          | some key =>
            match from_jwk key with
            | .error e => (.error e, cnt)
            | .ok _ =>
              match jwtDecode tok key env.auth0_audience (issuerOf env) now with
              | .ok payload => (.ok (payload, st2), cnt)
              | .error e => (.error e, cnt)

/- ============ Management-API Token Cache (auth0_management.py) =========== -/

/-- The module-level `_mgmt_token_cache` dict: token string and expiry
instant, both initially `None`. -/
structure MgmtTokenCache where
  token : Option String
  expires_at : Option Int
deriving DecidableEq

/-- Environment variables read by get_management_api_token. -/
structure MgmtEnv where
  auth0_domain : Option String
  client_id : Option String
  client_secret : Option String
deriving DecidableEq

/-- Outcome of the POST to the /oauth/token endpoint: a transport-level
exception, or a response with a status code, an access_token, and an
optional expires_in (absent means `data.get("expires_in", 86400)` takes
the default). -/
inductive TokenEndpoint where
  | transportError
  | response (status : Nat) (access_token : String) (expires_in : Option Int)
deriving DecidableEq

/-- Failures of get_management_api_token: `credentialsMissing` is the
ValueError for unset Auth0 credentials; `endpointError` is a transport
exception or `raise_for_status` on a 4xx/5xx response. -/
inductive MgmtTokenError where
  | credentialsMissing
  | endpointError
deriving DecidableEq

/-- The credential check `all([auth0_domain, client_id, client_secret])`
(auth0_management.py line 31). -/
def mgmtCredsOk (env : MgmtEnv) : Bool :=
  pyTruthy env.auth0_domain && pyTruthy env.client_id && pyTruthy env.client_secret

/-- The cache test of get_management_api_token (auth0_management.py lines
22-24): the cached token must be truthy, the expiry a datetime (always
truthy when present), and `now < expires_at` strictly. -/
def mgmtCacheHit (now : Int) (st : MgmtTokenCache) : Bool :=
  match st.token, st.expires_at with
  | some t, some ea => !t.isEmpty && decide (now < ea)
  | _, _ => false

/-- The refresh path of get_management_api_token (auth0_management.py
lines 27-73): missing credentials raise ValueError; then the POST outcome
is consulted - `raise_for_status` raises on status >= 400, otherwise the
token is cached with `expires_at = now + (expires_in - 300)` (the 5-minute
safety buffer, with expires_in defaulting to 86400). -/
def mgmt_refresh (env : MgmtEnv) (now : Int) (ep : TokenEndpoint) :
    Except MgmtTokenError (String × MgmtTokenCache) :=
  if !mgmtCredsOk env then .error .credentialsMissing
  else
    match ep with
    | .transportError => .error .endpointError
    | .response status tok expires_in =>
      if 400 ≤ status then .error .endpointError
      else .ok (tok, ⟨some tok, some (now + (expires_in.getD 86400 - 300))⟩)

/-- get_management_api_token (auth0_management.py lines 18-73): serve the
cached token while `now < expires_at`, otherwise run the refresh path.
Returns the token and the resulting cache state. -/
def get_management_api_token (env : MgmtEnv) (now : Int) (st : MgmtTokenCache)
    (ep : TokenEndpoint) : Except MgmtTokenError (String × MgmtTokenCache) :=
  match st.token, st.expires_at with
  | some t, some ea =>
    if !t.isEmpty && decide (now < ea) then .ok (t, st)
    else mgmt_refresh env now ep
  | _, _ => mgmt_refresh env now ep

/-- Number of POSTs to the token endpoint performed by a single call to
get_management_api_token: none on a cache hit, one attempt whenever the
refresh path reaches the HTTP client (credentials present). -/
def mgmtRequestCount (env : MgmtEnv) (now : Int) (st : MgmtTokenCache) : Nat :=
  if mgmtCacheHit now st then 0 else if mgmtCredsOk env then 1 else 0

/- ====== Management-API user lookup (auth0_management.py lines 76-128) ==== -/

/-- One element of an Auth0 `identities` array, with the fields the code
reads. -/
structure Auth0Identity where
  provider : Option String
  access_token : Option String
deriving DecidableEq

/-- Outcome of the GET on /api/v2/users/{id}: a transport-level exception,
or a response with a status and the `identities` array of its JSON body
(`user_data.get("identities", [])`, absent as `[]`). -/
inductive MgmtHttp where
  | transportError
  | response (status : Nat) (identities : List Auth0Identity)
deriving DecidableEq

/-- The identity scan shared by auth0_management.py lines 114-121 and
google_calendar.py lines 460-465: first identity whose provider is
"google-oauth2" and whose access_token is truthy; a google identity with a
falsy token is skipped and the scan continues. -/
def scanGoogleIdentity : List Auth0Identity → Option String
  | [] => none
  | i :: rest =>
    if i.provider = some "google-oauth2" then
      match i.access_token with
      | some t => if !t.isEmpty then some t else scanGoogleIdentity rest
      | none => scanGoogleIdentity rest
    else scanGoogleIdentity rest

/-- get_google_access_token_from_management_api (auth0_management.py lines
76-128).  The whole body is wrapped in `try/except Exception: return
None`, so a failure of get_management_api_token, a transport error, or any
other exception yields `none`; a non-200 status also yields `none`.
Returns the result together with the management-token cache state (mutated
only by a successful token refresh). -/
def get_google_access_token_from_management_api (env : MgmtEnv) (now : Int)
    (st : MgmtTokenCache) (ep : TokenEndpoint) (http : MgmtHttp) :
    Option String × MgmtTokenCache :=
  match get_management_api_token env now st ep with
  | .error _ => (none, st)
  | .ok (_, st2) =>
    match http with
    | .transportError => (none, st2)
    | .response status ids =>
      if status ≠ 200 then (none, st2)
      else (scanGoogleIdentity ids, st2)

/- ====== Token Resolver: get_google_access_token_from_auth0 =============== -/

/-- The claim keys read by get_google_access_token_from_auth0
(google_calendar.py lines 424-471): the namespaced custom claim
"https://vaultmind.app/google_access_token", the non-namespaced
"google_access_token", "sub", and the embedded `identities` array
(`.get("identities", [])`). -/
structure Claims where
  namespacedToken : Option String
  google_access_token : Option String
  sub : Option String
  identities : List Auth0Identity
deriving DecidableEq

/-- Error vocabulary of the resolver contract.  The spec reserves an
upstream-unavailable failure for transport-level errors during
resolution; the result type makes it expressible so that its
(un)reachability can be settled. -/
inductive ResolveError where
  | upstreamUnavailable
deriving DecidableEq

/-- get_google_access_token_from_auth0 (google_calendar.py lines 424-471):
method 1 the namespaced custom claim, method 2 the non-namespaced claim,
method 3 the Management-API lookup guarded by a truthy `sub`, method 4 the
embedded identities array; `none` when all miss.  The `Nat` counts calls
to get_google_access_token_from_management_api (the identity-management
API round-trip); the cache state is threaded through. -/
def get_google_access_token_from_auth0 (claims : Claims) (env : MgmtEnv) (now : Int)
    (st : MgmtTokenCache) (ep : TokenEndpoint) (http : MgmtHttp) :
    Except ResolveError (Option String × MgmtTokenCache × Nat) :=
  if pyTruthy claims.namespacedToken then .ok (claims.namespacedToken, st, 0)
  else if pyTruthy claims.google_access_token then .ok (claims.google_access_token, st, 0)
  else if pyTruthy claims.sub then
    let r := get_google_access_token_from_management_api env now st ep http
    if pyTruthy r.1 then .ok (r.1, r.2, 1)
    else .ok (scanGoogleIdentity claims.identities, r.2, 1)
  else .ok (scanGoogleIdentity claims.identities, st, 0)

/-- Spec-side chain (from the spec's words, section 4.3, for comparison
with the code): try the namespaced claim, then the non-namespaced claim,
then - when a subject is present - the identity-management lookup result,
then the embedded identities array, returning the first non-empty value
and `none` when all four miss.  `mgmtResult` stands for what the
identity-management lookup would return for `claims.sub`. -/
def resolveChainSpec (claims : Claims) (mgmtResult : Option String) : Option String :=
  if pyTruthy claims.namespacedToken then claims.namespacedToken
  else if pyTruthy claims.google_access_token then claims.google_access_token
  else if pyTruthy claims.sub && pyTruthy mgmtResult then mgmtResult
  else scanGoogleIdentity claims.identities

/- ====== Concurrency model of get_jwks (cooperative async, for § 5) ======= -/

/-- Progress of one caller through get_jwks: `start` is before the cache
check (main.py line 112), `fetching` is suspended at the awaited GET
(line 127) after initiating the outbound call, `done` is returned. -/
inductive CallerPhase where
  | start
  | fetching
  | done
deriving DecidableEq

/-- Shared process state plus per-caller program counters for concurrent
get_jwks calls at a common instant: the two module-level globals, the
total number of outbound fetches initiated, and each caller's phase. -/
structure ConcState where
  cache : Option Jwks
  lastUpdated : Option Int
  fetchCount : Nat
  phases : List CallerPhase
deriving DecidableEq

/-- One cooperative step of caller `i` at time `now`: from `start`, run
the cache check - a valid cache returns it (done), otherwise the outbound
GET is initiated and the caller suspends at the await; from `fetching`,
the GET completes with document `fetched` and the caller writes both
globals and returns.  There is no lock or single-flight guard in the
code, so the shared globals are read and written directly. -/
def stepCaller (now : Int) (fetched : Jwks) (s : ConcState) (i : Nat) : ConcState :=
  match s.phases.get? i with
  | none => s
  | some .done => s
  | some .start =>
    if cacheValid now ⟨s.cache, s.lastUpdated⟩ then
      { s with phases := s.phases.set i .done }
    else
      { s with phases := s.phases.set i .fetching, fetchCount := s.fetchCount + 1 }
  | some .fetching =>
    { cache := some fetched, lastUpdated := some now,
      fetchCount := s.fetchCount, phases := s.phases.set i .done }

/-- Run a schedule (a list of caller indices, each performing one step). -/
def runSched (now : Int) (fetched : Jwks) (s : ConcState) : List Nat → ConcState
  | [] => s
  | i :: rest => runSched now fetched (stepCaller now fetched s i) rest

/- ======================= Theorems ======================================== -/

/-- C4: when the key fetch fails, get_jwks propagates the failure rather
than serving stale keys: for every state in which the cache-validity test
fails (no cached set yet, or a stale one) and the domain is configured, a
failed fetch yields the KeySourceUnavailable error (HTTPException 500
"Unable to verify JWT signature") after the one fetch attempt - never an
`ok` result carrying the old cached key set. -/
theorem c4_jwks_fetch_failure_propagates (env : Env) (now : Int) (st : JwksState)
    (hmiss : cacheValid now st = false) (hdom : pyTruthy env.auth0_domain = true) :
    get_jwks env now st (Except.error ())
      = (Except.error JwksError.keySourceUnavailable, 1) := by
  have hfetch : jwks_fetch env now st (Except.error ())
      = (Except.error JwksError.keySourceUnavailable, 1) := by
    unfold jwks_fetch
    rw [hdom]
    rfl
  rcases st with ⟨c, lu⟩
  cases c with
  | none => exact hfetch
  | some c0 =>
    cases lu with
    | none => exact hfetch
    | some t0 =>
      simp only [cacheValid] at hmiss
      simp only [get_jwks, hmiss]
      exact hfetch

/-- Witness for C4 at a concrete stale cache: the cached set is 1399
seconds... stale at time 5000 (last refreshed at 1), and the fetch fails. -/
theorem c4_jwks_fetch_failure_propagates_witness :
    get_jwks ⟨some "d", none⟩ 5000 ⟨some ⟨[]⟩, some 1⟩ (Except.error ())
      = (Except.error JwksError.keySourceUnavailable, 1) :=
  c4_jwks_fetch_failure_propagates ⟨some "d", none⟩ 5000 ⟨some ⟨[]⟩, some 1⟩
    (by decide) (by decide)

/-- C1 (counterexample): with a fresh, valid Key Cache that does not
contain the token's declared kid "zzz", verify_jwt fails with
UnknownSigningKey having performed zero fetch attempts - not the "exactly
one forced refresh attempt" the claim requires. -/
theorem c1_unknown_key_counterexample :
    (verify_jwt ⟨some "d", some "aud1"⟩ 1500
        ⟨some ⟨[⟨some "RSA", some "abc", none, some "m", some "e1"⟩]⟩, some 1000⟩
        (Except.error ())
        ⟨true, ⟨some "zzz", some "RS256"⟩,
         ⟨some "s", some "aud1", some "https://d/", some 9999⟩, fun _ => true⟩).1
      = Except.error VerifyError.unknownSigningKey
    ∧ (verify_jwt ⟨some "d", some "aud1"⟩ 1500
        ⟨some ⟨[⟨some "RSA", some "abc", none, some "m", some "e1"⟩]⟩, some 1000⟩
        (Except.error ())
        ⟨true, ⟨some "zzz", some "RS256"⟩,
         ⟨some "s", some "aud1", some "https://d/", some 9999⟩, fun _ => true⟩).2
      = 0 :=
  ⟨rfl, rfl⟩

/-- C1 (amended): a key-id miss fails immediately.  Whenever the Key Cache
is valid (so get_jwks serves it without fetching) and the well-formed
token's declared kid is absent from the cached key set, verify_jwt fails
with UnknownSigningKey after zero refresh attempts: no forced refresh or
retry is performed anywhere in verify_jwt. -/
theorem c1_unknown_key_immediate (env : Env) (now t : Int) (j : Jwks)
    (fetch : Except Unit Jwks) (tok : Token) (kid : String)
    (hvalid : cacheValid now ⟨some j, some t⟩ = true)
    (hwf : tok.wellFormed = true)
    (hkid : tok.header.kid = some kid)
    (hne : kid.isEmpty = false)
    (hfind : findKey j.keys kid = none) :
    verify_jwt env now ⟨some j, some t⟩ fetch tok
      = (Except.error VerifyError.unknownSigningKey, 0) := by
  simp only [cacheValid] at hvalid
  unfold verify_jwt
  simp only [get_jwks, hvalid]
  simp [hwf, hkid, hne, hfind]

/-- Witness for C1 (amended) at the counterexample's concrete input. -/
theorem c1_unknown_key_immediate_witness :
    verify_jwt ⟨some "d", some "aud1"⟩ 1500
        ⟨some ⟨[⟨some "RSA", some "abc", none, some "m", some "e1"⟩]⟩, some 1000⟩
        (Except.error ())
        ⟨true, ⟨some "zzz", some "RS256"⟩,
         ⟨some "s", some "aud1", some "https://d/", some 9999⟩, fun _ => true⟩
      = (Except.error VerifyError.unknownSigningKey, 0) :=
  c1_unknown_key_immediate ⟨some "d", some "aud1"⟩ 1500 1000
    ⟨[⟨some "RSA", some "abc", none, some "m", some "e1"⟩]⟩ (Except.error ())
    ⟨true, ⟨some "zzz", some "RS256"⟩,
     ⟨some "s", some "aud1", some "https://d/", some 9999⟩, fun _ => true⟩
    "zzz" (by decide) rfl rfl (by decide) rfl

/-- C5 (counterexample): an expired token (exp 100, now 1500) whose
signature does NOT verify fails with the generic invalid-token error, not
TokenExpired: jwt.decode verifies the signature before validating expiry,
so expiry does not win "regardless of signature validity". -/
theorem c5_expired_counterexample :
    (verify_jwt ⟨some "d", some "aud1"⟩ 1500
        ⟨some ⟨[⟨some "RSA", some "abc", none, some "m", some "e1"⟩]⟩, some 1000⟩
        (Except.error ())
        ⟨true, ⟨some "abc", some "RS256"⟩,
         ⟨some "s", some "aud1", some "https://d/", some 100⟩, fun _ => false⟩).1
      = Except.error VerifyError.invalidToken
    ∧ (verify_jwt ⟨some "d", some "aud1"⟩ 1500
        ⟨some ⟨[⟨some "RSA", some "abc", none, some "m", some "e1"⟩]⟩, some 1000⟩
        (Except.error ())
        ⟨true, ⟨some "abc", some "RS256"⟩,
         ⟨some "s", some "aud1", some "https://d/", some 100⟩, fun _ => false⟩).1
      ≠ Except.error VerifyError.tokenExpired := by
  refine ⟨rfl, ?_⟩
  intro h
  rw [show (verify_jwt ⟨some "d", some "aud1"⟩ 1500
        ⟨some ⟨[⟨some "RSA", some "abc", none, some "m", some "e1"⟩]⟩, some 1000⟩
        (Except.error ())
        ⟨true, ⟨some "abc", some "RS256"⟩,
         ⟨some "s", some "aud1", some "https://d/", some 100⟩, fun _ => false⟩).1
      = Except.error VerifyError.invalidToken from rfl] at h
  simp at h

/-- C5 (amended): for every token whose expiry claim is in the past AND
whose RS256 signature verifies against the resolved key, verify_jwt fails
with TokenExpired; when the signature is invalid the earlier signature
check fails first with the generic invalid-token error instead. -/
theorem c5_expired_valid_sig (env : Env) (now t x : Int) (j : Jwks)
    (fetch : Except Unit Jwks) (tok : Token) (kid : String) (key : JwkKey)
    (hvalid : cacheValid now ⟨some j, some t⟩ = true)
    (hwf : tok.wellFormed = true)
    (hkid : tok.header.kid = some kid)
    (hne : kid.isEmpty = false)
    (hfind : findKey j.keys kid = some key)
    (hjwk : from_jwk key = Except.ok ())
    (halg : tok.header.alg = some "RS256")
    (hsig : tok.sigValid key = true)
    (hexp : tok.payload.exp = some x)
    (hpast : x ≤ now) :
    (verify_jwt env now ⟨some j, some t⟩ fetch tok).1
      = Except.error VerifyError.tokenExpired := by
  simp only [cacheValid] at hvalid
  unfold verify_jwt jwtDecode
  simp only [get_jwks, hvalid]
  simp [hwf, hkid, hne, hfind, hjwk, halg, hsig, hexp, hpast]

/-- Witness for C5 (amended): the same expired token with a verifying
signature is reported as expired. -/
theorem c5_expired_valid_sig_witness :
    (verify_jwt ⟨some "d", some "aud1"⟩ 1500
        ⟨some ⟨[⟨some "RSA", some "abc", none, some "m", some "e1"⟩]⟩, some 1000⟩
        (Except.error ())
        ⟨true, ⟨some "abc", some "RS256"⟩,
         ⟨some "s", some "aud1", some "https://d/", some 100⟩, fun _ => true⟩).1
      = Except.error VerifyError.tokenExpired :=
  c5_expired_valid_sig ⟨some "d", some "aud1"⟩ 1500 1000 100
    ⟨[⟨some "RSA", some "abc", none, some "m", some "e1"⟩]⟩ (Except.error ())
    ⟨true, ⟨some "abc", some "RS256"⟩,
     ⟨some "s", some "aud1", some "https://d/", some 100⟩, fun _ => true⟩
    "abc" ⟨some "RSA", some "abc", none, some "m", some "e1"⟩
    (by decide) rfl rfl (by decide) rfl rfl rfl rfl rfl (by decide)

/-- Helper: whenever mgmt_refresh reports missing credentials, the
credentials really are not all configured. -/
theorem mgmt_refresh_creds_missing {env : MgmtEnv} {now : Int} {ep : TokenEndpoint}
    (h : mgmt_refresh env now ep = Except.error MgmtTokenError.credentialsMissing) :
    mgmtCredsOk env = false := by
  cases hb : mgmtCredsOk env with
  | false => rfl
  | true =>
    exfalso
    cases ep with
    | transportError => simp [mgmt_refresh, hb] at h
    | response s tk ei =>
      simp only [mgmt_refresh, hb, Bool.not_true, Bool.false_eq_true, if_false] at h
      split at h <;> simp at h

/-- C10: while a cached, unexpired management token exists (cached token
truthy and now strictly before expires_at), get_management_api_token
returns the cached token and unchanged state for every environment and
every token-endpoint behaviour - the service-credential configuration is
neither read nor validated; and the CredentialsMissing failure implies
both a cache miss and unconfigured credentials, so it is reachable only on
the refresh path. -/
theorem c10_cache_hit_ignores_config (env : MgmtEnv) (ep : TokenEndpoint)
    (now ea : Int) (t : String) (st : MgmtTokenCache) :
    (st.token = some t → st.expires_at = some ea → t.isEmpty = false → now < ea →
      get_management_api_token env now st ep = Except.ok (t, st))
    ∧ (get_management_api_token env now st ep
        = Except.error MgmtTokenError.credentialsMissing →
      mgmtCacheHit now st = false ∧ mgmtCredsOk env = false) := by
  constructor
  · intro h1 h2 h3 h4
    rcases st with ⟨stok, sea⟩
    simp only at h1 h2
    subst h1; subst h2
    simp [get_management_api_token, h3, h4]
  · intro h
    rcases st with ⟨stok, sea⟩
    cases stok with
    | none =>
      exact ⟨rfl, mgmt_refresh_creds_missing h⟩
    | some t0 =>
      cases sea with
      | none =>
        exact ⟨rfl, mgmt_refresh_creds_missing h⟩
      | some ea0 =>
        simp only [get_management_api_token] at h
        by_cases hc : (!t0.isEmpty && decide (now < ea0)) = true
        · rw [if_pos hc] at h
          simp at h
        · rw [if_neg hc] at h
          refine ⟨?_, mgmt_refresh_creds_missing h⟩
          simpa [mgmtCacheHit] using hc

/-- Witness for C10: a cached token "mgmt" valid until 100 is served at
time 50 with no regard to the (empty) credential configuration. -/
theorem c10_cache_hit_ignores_config_witness :
    get_management_api_token ⟨none, none, none⟩ 50 ⟨some "mgmt", some 100⟩
        TokenEndpoint.transportError
      = Except.ok ("mgmt", ⟨some "mgmt", some 100⟩) :=
  (c10_cache_hit_ignores_config ⟨none, none, none⟩ TokenEndpoint.transportError
      50 100 "mgmt" ⟨some "mgmt", some 100⟩).1 rfl rfl (by decide) (by decide)

/-- C7: the Management-API Token Cache honours its TTL-minus-buffer.  A
refresh at time t0 with provider lifetime E stores expires_at =
t0 + (E - 300), i.e. the real expiry minus the 300-second safety buffer;
every call strictly before that instant returns the same cached token with
zero token-endpoint requests; and from that instant on the cache never
serves the stored token and a call issues exactly one new token-endpoint
request. -/
theorem c7_mgmt_token_cache_ttl (env : MgmtEnv) (ep : TokenEndpoint)
    (t0 E now1 now2 : Int) (tok : String)
    (hcreds : mgmtCredsOk env = true) (htok : tok.isEmpty = false) :
    get_management_api_token env t0 ⟨none, none⟩ (TokenEndpoint.response 200 tok (some E))
      = Except.ok (tok, ⟨some tok, some (t0 + (E - 300))⟩)
    ∧ (now1 < t0 + (E - 300) →
        get_management_api_token env now1 ⟨some tok, some (t0 + (E - 300))⟩ ep
          = Except.ok (tok, ⟨some tok, some (t0 + (E - 300))⟩)
        ∧ mgmtRequestCount env now1 ⟨some tok, some (t0 + (E - 300))⟩ = 0)
    ∧ (t0 + (E - 300) ≤ now2 →
        mgmtCacheHit now2 ⟨some tok, some (t0 + (E - 300))⟩ = false
        ∧ mgmtRequestCount env now2 ⟨some tok, some (t0 + (E - 300))⟩ = 1) := by
  refine ⟨?_, ?_, ?_⟩
  · simp [get_management_api_token, mgmt_refresh, hcreds]
  · intro h
    constructor
    · simp [get_management_api_token, htok, h]
    · simp [mgmtRequestCount, mgmtCacheHit, htok, h]
  · intro h
    have hlt : ¬ now2 < t0 + (E - 300) := not_lt.mpr h
    constructor
    · simp [mgmtCacheHit, hlt]
    · simp [mgmtRequestCount, mgmtCacheHit, hlt, hcreds]

/-- Witness for C7: refresh at time 1000 with lifetime 86400 caches until
1000 + (86400 - 300); a call at 2000 is a hit, a call at 90000 issues one
request. -/
theorem c7_mgmt_token_cache_ttl_witness :
    get_management_api_token ⟨some "d", some "cid", some "sec"⟩ 2000
        ⟨some "mgmt", some (1000 + (86400 - 300))⟩ TokenEndpoint.transportError
      = Except.ok ("mgmt", ⟨some "mgmt", some (1000 + (86400 - 300))⟩)
    ∧ mgmtRequestCount ⟨some "d", some "cid", some "sec"⟩ 90000
        ⟨some "mgmt", some (1000 + (86400 - 300))⟩ = 1 := by
  have h := c7_mgmt_token_cache_ttl ⟨some "d", some "cid", some "sec"⟩
    TokenEndpoint.transportError 1000 86400 2000 90000 "mgmt" (by decide) (by decide)
  exact ⟨(h.2.1 (by decide)).1, (h.2.2 (by decide)).2⟩

/-- C2: the resolver agrees everywhere with the spec's ordered fallback
chain (namespaced claim, non-namespaced claim, management-API lookup
guarded by the subject, embedded identities array, else none - first
non-empty value wins and a total miss is the value `none`, not an error);
and on the concrete claims {"sub": "p|1", "google_access_token": "tok123"}
it returns "tok123" with zero management-API calls. -/
theorem c2_resolve_fallback_chain :
    (∀ (claims : Claims) (env : MgmtEnv) (now : Int) (st : MgmtTokenCache)
        (ep : TokenEndpoint) (http : MgmtHttp), ∃ st2 n,
        get_google_access_token_from_auth0 claims env now st ep http
          = Except.ok (resolveChainSpec claims
              (get_google_access_token_from_management_api env now st ep http).1,
              st2, n))
    ∧ (∀ (env : MgmtEnv) (now : Int) (st : MgmtTokenCache) (ep : TokenEndpoint)
        (http : MgmtHttp),
        get_google_access_token_from_auth0 ⟨none, some "tok123", some "p|1", []⟩
            env now st ep http
          = Except.ok (some "tok123", st, 0)) := by
  constructor
  · intro claims env now st ep http
    cases h1 : pyTruthy claims.namespacedToken with
    | true =>
      exact ⟨st, 0, by simp [get_google_access_token_from_auth0, resolveChainSpec, h1]⟩
    | false =>
      cases h2 : pyTruthy claims.google_access_token with
      | true =>
        exact ⟨st, 0, by simp [get_google_access_token_from_auth0, resolveChainSpec, h1, h2]⟩
      | false =>
        cases h3 : pyTruthy claims.sub with
        | false =>
          exact ⟨st, 0, by simp [get_google_access_token_from_auth0, resolveChainSpec,
            h1, h2, h3]⟩
        | true =>
          cases h4 : pyTruthy
              (get_google_access_token_from_management_api env now st ep http).1 with
          | true =>
            refine ⟨(get_google_access_token_from_management_api env now st ep http).2,
              1, ?_⟩
            simp [get_google_access_token_from_auth0, resolveChainSpec, h1, h2, h3, h4]
          | false =>
            refine ⟨(get_google_access_token_from_management_api env now st ep http).2,
              1, ?_⟩
            simp [get_google_access_token_from_auth0, resolveChainSpec, h1, h2, h3, h4]
  · intro env now st ep http
    rfl

/-- C3 (counterexample): with claims carrying only a subject and with the
token endpoint failing at the transport level, the resolver returns the
plain not-found value `ok none` after its one management-API attempt - it
does not raise an upstream-unavailable error, so transport failure is not
distinguishable from absence. -/
theorem c3_transport_counterexample :
    get_google_access_token_from_auth0 ⟨none, none, some "p|1", []⟩
        ⟨some "d", some "cid", some "sec"⟩ 0 ⟨none, none⟩
        TokenEndpoint.transportError MgmtHttp.transportError
      = Except.ok (none, ⟨none, none⟩, 1)
    ∧ get_google_access_token_from_auth0 ⟨none, none, some "p|1", []⟩
        ⟨some "d", some "cid", some "sec"⟩ 0 ⟨none, none⟩
        TokenEndpoint.transportError MgmtHttp.transportError
      ≠ Except.error ResolveError.upstreamUnavailable := by
  have h : get_google_access_token_from_auth0 ⟨none, none, some "p|1", []⟩
        ⟨some "d", some "cid", some "sec"⟩ 0 ⟨none, none⟩
        TokenEndpoint.transportError MgmtHttp.transportError
      = Except.ok (none, ⟨none, none⟩, 1) := rfl
  refine ⟨h, ?_⟩
  rw [h]
  simp

/-- C3 (amended): the resolver never raises at all.  For every claims
object, environment, cache state and downstream behaviour - including
transport-level failures of the token endpoint or of the user lookup, and
5xx responses - get_google_access_token_from_auth0 returns an `ok` value:
the management-API step catches every exception and returns None, and the
chain falls through to the identities array. -/
theorem c3_resolve_never_raises (claims : Claims) (env : MgmtEnv) (now : Int)
    (st : MgmtTokenCache) (ep : TokenEndpoint) (http : MgmtHttp) :
    ∃ v, get_google_access_token_from_auth0 claims env now st ep http
      = Except.ok v := by
  unfold get_google_access_token_from_auth0
  cases h1 : pyTruthy claims.namespacedToken with
  | true => simp only [h1]; exact ⟨_, rfl⟩
  | false =>
    cases h2 : pyTruthy claims.google_access_token with
    | true => simp only [h1, h2]; exact ⟨_, rfl⟩
    | false =>
      cases h3 : pyTruthy claims.sub with
      | false => simp only [h1, h2, h3]; exact ⟨_, rfl⟩
      | true =>
        cases h4 : pyTruthy
            (get_google_access_token_from_management_api env now st ep http).1 with
        | true => simp only [h1, h2, h3, h4]; exact ⟨_, rfl⟩
        | false => simp only [h1, h2, h3, h4]; exact ⟨_, rfl⟩

/-- C6: whenever the namespaced custom claim is truthy, the resolver
returns it with an unchanged management-token cache and zero calls to the
identity-management API - no network round-trip of any kind occurs. -/
theorem c6_namespaced_claim_no_mgmt_call (claims : Claims) (env : MgmtEnv)
    (now : Int) (st : MgmtTokenCache) (ep : TokenEndpoint) (http : MgmtHttp)
    (h : pyTruthy claims.namespacedToken = true) :
    get_google_access_token_from_auth0 claims env now st ep http
      = Except.ok (claims.namespacedToken, st, 0) := by
  simp [get_google_access_token_from_auth0, h]

/-- Witness for C6 at concrete claims carrying the namespaced token. -/
theorem c6_namespaced_claim_no_mgmt_call_witness :
    get_google_access_token_from_auth0 ⟨some "nsTok", none, some "p|1", []⟩
        ⟨some "d", some "cid", some "sec"⟩ 0 ⟨none, none⟩
        TokenEndpoint.transportError MgmtHttp.transportError
      = Except.ok (some "nsTok", ⟨none, none⟩, 0) :=
  c6_namespaced_claim_no_mgmt_call ⟨some "nsTok", none, some "p|1", []⟩
    ⟨some "d", some "cid", some "sec"⟩ 0 ⟨none, none⟩
    TokenEndpoint.transportError MgmtHttp.transportError (by decide)

/-- C9: when the claims dict has no "sub" key (and neither custom claim is
truthy), the resolver performs zero management-API calls and goes straight
to scanning the embedded identities array, returning its scan result
(still a token when the array holds a google-oauth2 identity with a truthy
access_token). -/
theorem c9_no_sub_skips_mgmt (claims : Claims) (env : MgmtEnv) (now : Int)
    (st : MgmtTokenCache) (ep : TokenEndpoint) (http : MgmtHttp)
    (hsub : claims.sub = none)
    (h1 : pyTruthy claims.namespacedToken = false)
    (h2 : pyTruthy claims.google_access_token = false) :
    get_google_access_token_from_auth0 claims env now st ep http
      = Except.ok (scanGoogleIdentity claims.identities, st, 0) := by
  have h3 : pyTruthy claims.sub = false := by rw [hsub]; rfl
  simp [get_google_access_token_from_auth0, h1, h2, h3]

/-- Witness for C9: sub-less claims with an embedded google identity
resolve to that identity's token with zero management-API calls. -/
theorem c9_no_sub_skips_mgmt_witness :
    get_google_access_token_from_auth0
        ⟨none, none, none, [⟨some "google-oauth2", some "tokX"⟩]⟩
        ⟨some "d", some "cid", some "sec"⟩ 0 ⟨none, none⟩
        TokenEndpoint.transportError MgmtHttp.transportError
      = Except.ok (some "tokX", ⟨none, none⟩, 0) :=
  c9_no_sub_skips_mgmt ⟨none, none, none, [⟨some "google-oauth2", some "tokX"⟩]⟩
    ⟨some "d", some "cid", some "sec"⟩ 0 ⟨none, none⟩
    TokenEndpoint.transportError MgmtHttp.transportError rfl (by decide) (by decide)

/-- C8 (counterexample): two concurrent callers that both run the cache
check before either refresh completes (schedule caller 0 check, caller 1
check, caller 0 write, caller 1 write) each initiate their own outbound
fetch: the total is 2, not the "exactly one" the single-flight claim
requires. -/
theorem c8_single_flight_counterexample :
    (runSched 1000 ⟨[]⟩ ⟨none, none, 0, [CallerPhase.start, CallerPhase.start]⟩
        [0, 1, 0, 1]).fetchCount = 2
    ∧ ¬ ((runSched 1000 ⟨[]⟩ ⟨none, none, 0, [CallerPhase.start, CallerPhase.start]⟩
        [0, 1, 0, 1]).fetchCount = 1) := by
  constructor
  · rfl
  · decide

/-- C8 (amended): get_jwks has no single-flight guard.  From any state in
which the cache check fails, two concurrent callers whose cache checks
both precede either refresh completion initiate 2 outbound fetches (one
each); a caller whose check runs only after another caller's refresh has
completed is served from the refreshed cache, leaving the total at 1.
Only scheduling, not any lock, bounds the number of outbound calls. -/
theorem c8_concurrent_fetch_counts (now : Int) (j : Jwks) (c : Option Jwks)
    (lu : Option Int)
    (hmiss : cacheValid now ⟨c, lu⟩ = false) (hnz : now ≠ 0) :
    (runSched now j ⟨c, lu, 0, [CallerPhase.start, CallerPhase.start]⟩
        [0, 1, 0, 1]).fetchCount = 2
    ∧ (runSched now j ⟨c, lu, 0, [CallerPhase.start, CallerPhase.start]⟩
        [0, 0, 1]).fetchCount = 1 := by
  have hv : cacheValid now ⟨some j, some now⟩ = true := by
    simp only [cacheValid, Bool.and_eq_true, decide_eq_true_eq]
    refine ⟨hnz, ?_⟩
    rw [sub_self]
    norm_num [JWKS_CACHE_DURATION]
  constructor
  · simp [runSched, stepCaller, hmiss, List.set]
  · simp [runSched, stepCaller, hmiss, hv, List.set]

/-- Witness for C8 (amended) from the empty initial cache at time 1000. -/
theorem c8_concurrent_fetch_counts_witness :
    (runSched 1000 ⟨[]⟩ ⟨none, none, 0, [CallerPhase.start, CallerPhase.start]⟩
        [0, 1, 0, 1]).fetchCount = 2
    ∧ (runSched 1000 ⟨[]⟩ ⟨none, none, 0, [CallerPhase.start, CallerPhase.start]⟩
        [0, 0, 1]).fetchCount = 1 :=
  c8_concurrent_fetch_counts 1000 ⟨[]⟩ none none (by decide) (by decide)

end VaultMind
